import Mathlib

/-!
Verification development for the blue-beacon newsletter-subscription endpoint.

The server pipeline lives in `src/api/subscribe.js`; the browser form
controller (with CSRF token generation) lives in the client asset file.
JavaScript values that flow through the handler are modelled by the
inductive type `JsVal`; machine strings are Lean `String`s with an
explicit UTF-16 length function `jsLength` (JavaScript `.length` counts
UTF-16 code units).  Fallible JavaScript evaluation (a thrown
`TypeError`) is modelled with `Except String`.
-/

namespace BlueBeacon

/-- A JavaScript/JSON value as it can appear in `req.body` and in the
downstream provider response.  Numbers are modelled as integers (no
claim depends on float semantics). -/
inductive JsVal where
  | undefined : JsVal
  | null : JsVal
  | bool : Bool → JsVal
  | num : Int → JsVal
  | str : String → JsVal
  | arr : List JsVal → JsVal
  | obj : List (String × JsVal) → JsVal
deriving Repr

/-- UTF-16 length of one character: code points above U+FFFF take two
code units (surrogate pair). -/
def utf16Len (c : Char) : Nat :=
  if c.val < 0x10000 then 1 else 2

/-- JavaScript `String.prototype.length`: the number of UTF-16 code
units of the string. -/
def jsLength (s : String) : Nat :=
  (s.data.map utf16Len).sum

/-- The character class `\s` of a JavaScript regular expression
(ECMAScript WhiteSpace plus LineTerminator). -/
def jsWhitespace (c : Char) : Bool :=
  c = ' ' || c = '\t' || c = '\n' || c.val = 13 || c.val = 11 || c.val = 12 ||
  c.val = 0xa0 || c.val = 0x1680 || (0x2000 ≤ c.val && c.val ≤ 0x200a) ||
  c.val = 0x2028 || c.val = 0x2029 || c.val = 0x202f || c.val = 0x205f ||
  c.val = 0x3000 || c.val = 0xfeff

/-- JavaScript `String.prototype.trim`: strip leading and trailing
whitespace. -/
def jsTrim (s : String) : String :=
  String.mk (((s.data.dropWhile jsWhitespace).reverse.dropWhile jsWhitespace).reverse)

/-- JavaScript `String.prototype.toLowerCase` restricted to the ASCII
case mapping (the model covers ASCII data; no claim depends on Unicode
case folding). -/
def jsToLower (s : String) : String :=
  String.mk (s.data.map Char.toLower)

/-- Lower-case hexadecimal digit for a value below 16 (as produced by
JavaScript `Number.prototype.toString(16)` on a byte nibble). -/
def hexDigit (n : Nat) : Char :=
  if n < 10 then Char.ofNat (48 + n) else Char.ofNat (87 + n)

/-- JSON string escaping of one character, as performed by
`JSON.stringify`. -/
def jsonEscapeChar (c : Char) : List Char :=
  if c = '"' then ['\\', '"']
  else if c = '\\' then ['\\', '\\']
  else if c.val = 8 then ['\\', 'b']
  else if c = '\t' then ['\\', 't']
  else if c = '\n' then ['\\', 'n']
  else if c.val = 12 then ['\\', 'f']
  else if c.val = 13 then ['\\', 'r']
  else if c.val < 0x20 then
    ['\\', 'u', '0', '0', hexDigit (c.val.toNat / 16), hexDigit (c.val.toNat % 16)]
  else [c]

/-- Quote and escape a string as `JSON.stringify` does. -/
def jsonQuote (s : String) : String :=
  "\"" ++ String.mk (s.data.map jsonEscapeChar).flatten ++ "\""

mutual
/-- `JSON.stringify`: `undefined` serializes to no string at all
(JavaScript returns the value `undefined`); object fields whose value
does not serialize are omitted; array elements that do not serialize
become `null`. -/
def jsonStringify : JsVal → Option String
  | .undefined => none
  | .null => some "null"
  | .bool true => some "true"
  | .bool false => some "false"
  | .num n => some (toString n)
  | .str s => some (jsonQuote s)
  | .arr xs => some ("[" ++ String.intercalate "," (jsonStringifyArr xs) ++ "]")
  | .obj fs => some ("\x7b" ++ String.intercalate "," (jsonStringifyObj fs) ++ "\x7d")

/-- Serialize the elements of a JSON array. -/
def jsonStringifyArr : List JsVal → List String
  | [] => []
  | x :: xs => ((jsonStringify x).getD "null") :: jsonStringifyArr xs

/-- Serialize the fields of a JSON object, omitting fields whose value
does not serialize. -/
def jsonStringifyObj : List (String × JsVal) → List String
  | [] => []
  | (k, v) :: fs =>
    match jsonStringify v with
    | none => jsonStringifyObj fs
    | some sv => (jsonQuote k ++ ":" ++ sv) :: jsonStringifyObj fs
end

/-- JavaScript truthiness of a modelled value. -/
def jsTruthy : JsVal → Bool
  | .undefined => false
  | .null => false
  | .bool b => b
  | .num n => n ≠ 0
  | .str s => s ≠ ""
  | .arr _ => true
  | .obj _ => true

/-- Optional-chaining property access `v?.k`: `undefined` on nullish
receivers; first-match lookup on objects; primitives we model carry no
such own property. -/
def jsProp (v : JsVal) (k : String) : JsVal :=
  match v with
  | .obj fs => ((fs.lookup k).getD .undefined)
  | _ => .undefined

/-- Optional-chaining call `v?.trim()`: skipped on nullish receivers,
a string method on strings, and a thrown `TypeError` on every other
value (`trim` is not a function there). -/
def jsOptTrim (v : JsVal) : Except String JsVal :=
  match v with
  | .undefined => .ok .undefined
  | .null => .ok .undefined
  | .str s => .ok (.str (jsTrim s))
  | _ => .error "TypeError"

/-- Optional-chaining call `v?.toLowerCase()`, analogous to
`jsOptTrim`. -/
def jsOptToLower (v : JsVal) : Except String JsVal :=
  match v with
  | .undefined => .ok .undefined
  | .null => .ok .undefined
  | .str s => .ok (.str (jsToLower s))
  | _ => .error "TypeError"

/-- The expression `body?.email?.trim()?.toLowerCase()` from the
handler. -/
def emailOf (body : JsVal) : Except String JsVal := do
  let e := jsProp body "email"
  let t ← jsOptTrim e
  jsOptToLower t

/-- Test of the regular expression
`/^[^\s@]+@[^\s@]+\.[^\s@]+$/` shared by the client and the server:
the part before the first `@` is non-empty and free of whitespace,
the part after it is non-empty, free of whitespace and of further `@`,
and contains a dot that is neither its first nor its last character. -/
def emailRegexTest (s : String) : Bool :=
  let cs := s.data
  let a := cs.takeWhile (· ≠ '@')
  match cs.dropWhile (· ≠ '@') with
  | [] => false
  | _ :: b =>
    !a.isEmpty && a.all (fun c => !jsWhitespace c) &&
    b.all (fun c => !jsWhitespace c && c ≠ '@') &&
    ((b.drop 1).dropLast.contains '.')

/-- `isValidEmail` from `src/api/subscribe.js`: non-strings fail the
`typeof` guard, strings longer than 254 UTF-16 units fail the cap, the
rest is the shared regular expression. -/
def isValidEmail (email : JsVal) : Bool :=
  match email with
  | .str s => !(254 < jsLength s) && emailRegexTest s
  | _ => false

/-- An incoming request as the handler reads it.  `body` is `req.body`
(`.str` for a raw string body that still goes through `JSON.parse`,
`.undefined` when no body was delivered). -/
structure Req where
  method : String
  origin : Option String
  cookieCsrfToken : Option String
  headerCsrfToken : Option String
  xRealIp : Option String
  xForwardedFor : Option String
  body : JsVal

/-- `validateCSRF` from `src/api/subscribe.js`: both tokens truthy
(present and non-empty), equal, and of length at least 32. -/
def validateCSRF (req : Req) : Bool :=
  match req.cookieCsrfToken, req.headerCsrfToken with
  | some c, some h =>
    if c = "" ∨ h = "" then false
    else if c ≠ h then false
    else if jsLength c < 32 then false
    else true
  | _, _ => false

/-- `MAX_BODY_SIZE` from `src/api/subscribe.js`. -/
def MAX_BODY_SIZE : Nat := 1024

/-- `isBodyTooLarge` from `src/api/subscribe.js`:
`JSON.stringify(body).length > MAX_BODY_SIZE`.  When the body does not
serialize (`JSON.stringify` returns `undefined`), reading `.length`
throws and the surrounding `catch` yields `true`. -/
def isBodyTooLarge (body : JsVal) : Bool :=
  match jsonStringify body with
  | some s => MAX_BODY_SIZE < jsLength s
  | none => true

/-- `getClientIP` from `src/api/subscribe.js`: prefer `x-real-ip`,
fall back to the first comma-separated entry of `x-forwarded-for`
(trimmed), else the sentinel `unknown`; empty strings are falsy and
fall through. -/
def getClientIP (req : Req) : String :=
  let real := (req.xRealIp).getD ""
  if real ≠ "" then real
  else
    let fwd := match req.xForwardedFor with
      | none => ""
      | some s => jsTrim (String.mk (s.data.takeWhile (· ≠ ',')))
    if fwd ≠ "" then fwd else "unknown"

/-- `randomDelay` from `src/api/subscribe.js` computes
`Math.floor(Math.random() * (maxMs - minMs + 1)) + minMs`; the random
draw is modelled by an arbitrary natural `rand` reduced modulo the
width of the range. -/
def randomDelay (minMs maxMs rand : Nat) : Nat :=
  rand % (maxMs - minMs + 1) + minMs

/-- `ALLOWED_ORIGINS` from `src/api/subscribe.js`: the three production
domains, plus the localhost origins outside production mode. -/
def ALLOWED_ORIGINS (production : Bool) : List String :=
  ["https://bluebeaconshow.com",
   "https://www.bluebeaconshow.com",
   "https://bluebeaconshow.vercel.app"] ++
  (if production then []
   else ["http://localhost:3000", "http://localhost:5173", "http://127.0.0.1:3000"])

/-- The `Access-Control-Allow-Origin` value the handler sets: the
request origin echoed exactly when it is on the allow-list. -/
def corsOriginFor (production : Bool) (origin : Option String) : Option String :=
  match origin with
  | some o => if o ∈ ALLOWED_ORIGINS production then some o else none
  | none => none

/-- JSON body `\x7berror: msg\x7d` of a failure response. -/
def errBody (msg : String) : JsVal :=
  .obj [("error", .str msg)]

/-- JSON body of the generic success response. -/
def successBody : JsVal :=
  .obj [("success", .bool true), ("message", .str "Subscribed successfully")]

/-- The environment and external effects around one handler
invocation: deployment mode, rate-limiter store configuration and the
outcome of its `limit` call per identifier (`Except.error` models a
thrown limiter error), the `JSON.parse` builtin, the provider
configuration, the random draw of `randomDelay`, and the outcome of
the downstream `fetch` plus `response.json()` (`Except.error` models a
network or parse failure; `.ok (ok, data)` carries `response.ok` and
the parsed payload). -/
structure World where
  production : Bool
  upstashConfigured : Bool
  limiterOutcome : String → Except Unit (Bool × Int)
  jsonParse : String → Except Unit JsVal
  convertkitApiKey : Option String
  convertkitFormId : Option String
  rand : Nat
  fetchOutcome : Except Unit (Bool × JsVal)

/-- Everything observable about one handler invocation: the HTTP
status, the JSON body passed to `res.json` (`none` for the bare
`res.end()` of the pre-flight branch), the CORS origin header, the
`X-RateLimit-Remaining` header, the honeypot delay that was awaited,
whether the downstream provider was contacted, and the email sent to
it. -/
structure HandlerOutcome where
  status : Nat
  json : Option JsVal
  corsOrigin : Option String
  rlRemainingHeader : Option String
  delayMs : Option Nat
  downstreamCalled : Bool
  downstreamEmail : Option String
deriving Repr

/-- The body-parsing stage: a string body goes through `JSON.parse`,
anything else is already structured. -/
def parseStage (w : World) (req : Req) : Except Unit JsVal :=
  match req.body with
  | .str s => w.jsonParse s
  | b => .ok b

/-- The underlying string of a string value (the email value at the
downstream call is always a string). -/
def strOf : JsVal → String
  | .str s => s
  | _ => ""

/-- Plain (non-optional) property access `v.k`: a thrown `TypeError`
on nullish receivers, first-match lookup on objects, `undefined` for
the absent property on the primitives we model. -/
def jsPropStrict (v : JsVal) (k : String) : Except String JsVal :=
  match v with
  | .undefined => .error "TypeError"
  | .null => .error "TypeError"
  | .obj fs => .ok ((fs.lookup k).getD .undefined)
  | _ => .ok .undefined

/-- The condition `response.ok && data.subscription` of the result
translation stage, with JavaScript short-circuit evaluation: when
`response.ok` is false the plain access `data.subscription` is never
evaluated; when it is true and `data` is nullish the access throws
(the surrounding try/catch turns that into the generic 500). -/
def okAndSubscription (ok : Bool) (data : JsVal) : Except String Bool :=
  if ok then
    match jsPropStrict data "subscription" with
    | .error e => .error e
    | .ok sub => .ok (jsTruthy sub)
  else .ok false

/-- The pipeline from the presence/validation stage on (after method,
CSRF, rate-limit, parsing and size have passed), with the CORS header
and rate-limit header already computed. -/
def afterSize (w : World) (corsO rlH : Option String) (body : JsVal) :
    Except String HandlerOutcome :=
  match emailOf body with
  | .error e => .error e
  | .ok emailV =>
    if !jsTruthy emailV then
      .ok ⟨400, some (errBody "Email is required"), corsO, rlH, none, false, none⟩
    else if !isValidEmail emailV then
      .ok ⟨400, some (errBody "Please provide a valid email address"), corsO, rlH, none, false, none⟩
    else if jsTruthy (jsProp body "website") then
      .ok ⟨200, some successBody, corsO, rlH, some (randomDelay 200 600 w.rand), false, none⟩
    else if w.convertkitApiKey.getD "" = "" ∨ w.convertkitFormId.getD "" = "" then
      .ok ⟨500, some (errBody "Service temporarily unavailable"), corsO, rlH, none, false, none⟩
    else
      match w.fetchOutcome with
      | .error _ =>
        .ok ⟨500, some (errBody "Service temporarily unavailable"), corsO, rlH, none, true,
             some (strOf emailV)⟩
      | .ok (ok, data) =>
        match okAndSubscription ok data with
        | .error _ =>
          .ok ⟨500, some (errBody "Service temporarily unavailable"), corsO, rlH, none, true,
               some (strOf emailV)⟩
        | .ok true =>
          .ok ⟨200, some successBody, corsO, rlH, none, true, some (strOf emailV)⟩
        | .ok false =>
          .ok ⟨400, some (errBody "Subscription failed. Please try again."), corsO, rlH, none, true,
               some (strOf emailV)⟩

/-- The `X-RateLimit-Remaining` header the handler ends up with when
the rate-limit stage does not block: set from the limiter result when
the store is configured and the call did not throw. -/
def rlHeaderFor (w : World) (req : Req) : Option String :=
  if w.upstashConfigured then
    match w.limiterOutcome (getClientIP req) with
    | .ok (_, remaining) => some (toString remaining)
    | .error _ => none
  else none

/-- The rate-limit stage decision: `some remaining` when the store is
configured and the limiter call reports failure (the request is
blocked); `none` when the store is unconfigured, the call reports
success, or the call throws (the code logs and continues — fail
open). -/
def rlBlocked (w : World) (req : Req) : Option Int :=
  if w.upstashConfigured then
    match w.limiterOutcome (getClientIP req) with
    | .ok (false, remaining) => some remaining
    | _ => none
  else none

/-- The request handler of `src/api/subscribe.js`, stage by stage:
CORS headers and pre-flight, method gate, CSRF gate (production only),
rate limit (the code sets `X-RateLimit-Remaining` from the limiter
result before checking it, so the 429 branch carries the same
remaining count that `rlHeaderFor` yields on the non-blocked path),
body parsing, size cap, then `afterSize`. -/
def handler (w : World) (req : Req) : Except String HandlerOutcome :=
  if req.method = "OPTIONS" then
    .ok ⟨200, none, corsOriginFor w.production req.origin, none, none, false, none⟩
  else if req.method ≠ "POST" then
    .ok ⟨405, some (errBody "Method not allowed"),
         corsOriginFor w.production req.origin, none, none, false, none⟩
  else if w.production && !validateCSRF req then
    .ok ⟨403, some (errBody "Invalid request. Please refresh the page and try again."),
         corsOriginFor w.production req.origin, none, none, false, none⟩
  else
    match rlBlocked w req with
    | some remaining =>
      .ok ⟨429, some (errBody "Too many requests. Please try again later."),
           corsOriginFor w.production req.origin, some (toString remaining), none, false, none⟩
    | none =>
      match parseStage w req with
      | .error _ =>
        .ok ⟨400, some (errBody "Invalid request format"),
             corsOriginFor w.production req.origin, rlHeaderFor w req, none, false, none⟩
      | .ok body =>
        if isBodyTooLarge body then
          .ok ⟨413, some (errBody "Request too large"),
               corsOriginFor w.production req.origin, rlHeaderFor w req, none, false, none⟩
        else
          afterSize w (corsOriginFor w.production req.origin) (rlHeaderFor w req) body

/-- The client-side submit gate from the form controller: read the
input, trim it, and proceed to the network call only when the result
is non-empty and matches the shared regular expression (the client has
no length cap). -/
def clientAccepts (rawInput : String) : Bool :=
  let email := jsTrim rawInput
  !(email = "" || !emailRegexTest email)

/-- One byte rendered as two lower-case hexadecimal characters:
`byte.toString(16).padStart(2, '0')` from the client token
generator. -/
def byteToHex2 (b : Nat) : String :=
  String.mk [hexDigit (b / 16), hexDigit (b % 16)]

/-- `generateCSRFToken` from the client: 32 cryptographically random
bytes (modelled as the input list), each hex-encoded to two characters
and joined. -/
def generateCSRFToken (bytes : List Nat) : String :=
  String.join (bytes.map byteToHex2)

/-- Modelled from the spec: the sliding-window rate limiter itself
lives in the external upstash packages, not in this repository; the
spec describes a record per client identifier "holding a sliding count
of request timestamps within a fixed window" with "at most 5 accepted
requests per identifier per 60-second window".  The state is the list
of accepted timestamps for one identifier; a request at time `t` is
allowed when fewer than 5 accepted timestamps lie in the last 60
seconds, i.e. in the half-open interval `(t - 60, t]`. -/
def rlAllow (state : List Nat) (t : Nat) : Bool :=
  (state.countP fun ts => decide (ts ≤ t ∧ t < ts + 60)) < 5

/-- Modelled from the spec: the state transition of the limiter for
one identifier — an allowed request records its timestamp, a rejected
one leaves the state unchanged (entries age out implicitly by falling
outside the window). -/
def rlStep (state : List Nat) (t : Nat) : List Nat :=
  if rlAllow state t then t :: state else state

/-- Modelled from the spec: run the limiter over a sequence of request
timestamps for one identifier, recording each decision. -/
def rlProcess (state : List Nat) : List Nat → List (Nat × Bool)
  | [] => []
  | t :: rest => (t, rlAllow state t) :: rlProcess (rlStep state t) rest

/-! ## Helper lemmas -/

/-- `validateCSRF` succeeds exactly when cookie and header hold the
same token of length at least 32. -/
theorem validateCSRF_iff (req : Req) :
    validateCSRF req = true ↔
      ∃ t, req.cookieCsrfToken = some t ∧ req.headerCsrfToken = some t ∧ 32 ≤ jsLength t := by
  cases hc : req.cookieCsrfToken with
  | none => simp [validateCSRF, hc]
  | some c =>
    cases hh : req.headerCsrfToken with
    | none => simp [validateCSRF, hc, hh]
    | some h =>
      simp only [validateCSRF, hc, hh]
      split_ifs with h1 h2 h3
      · simp only [false_iff]
        rintro ⟨t, ht1, ht2, ht3⟩
        cases ht1; cases ht2
        rcases h1 with h1 | h1 <;> · subst h1; simp [jsLength] at ht3
      · simp only [false_iff]
        rintro ⟨t, ht1, ht2, ht3⟩
        cases ht1; cases ht2
        exact h2 rfl
      · simp only [false_iff]
        rintro ⟨t, ht1, ht2, ht3⟩
        cases ht1; cases ht2
        omega
      · simp only [true_iff]
        push_neg at h2
        exact ⟨c, rfl, by rw [h2], by omega⟩

/-- `rlBlocked` yields `some` exactly when the store is configured and
the limiter reported failure with that remaining count. -/
theorem rlBlocked_eq_some (w : World) (req : Req) (rem : Int) :
    rlBlocked w req = some rem ↔
      w.upstashConfigured = true ∧
        w.limiterOutcome (getClientIP req) = .ok (false, rem) := by
  unfold rlBlocked
  cases hU : w.upstashConfigured with
  | false => simp
  | true =>
    simp only [if_true]
    cases hL : w.limiterOutcome (getClientIP req) with
    | error e => simp
    | ok p =>
      obtain ⟨s, r⟩ := p
      cases s <;> simp

/-- Pipeline decomposition: a POST that passes the CSRF gate, is not
blocked by the rate limiter, parses, and is within the size cap is
handled by the remaining pipeline `afterSize`. -/
theorem handler_reaches_email (w : World) (req : Req) (body : JsVal)
    (hm : req.method = "POST")
    (hcsrf : w.production = true → validateCSRF req = true)
    (hrl : rlBlocked w req = none)
    (hparse : parseStage w req = .ok body)
    (hsize : isBodyTooLarge body = false) :
    handler w req =
      afterSize w (corsOriginFor w.production req.origin) (rlHeaderFor w req) body := by
  have hc : (w.production && !validateCSRF req) = false := by
    cases hP : w.production with
    | false => simp
    | true => simp [hcsrf hP]
  unfold handler
  rw [hm, hrl, hparse]
  simp [hc, hsize]

/-- Every successful result of the tail pipeline carries the CORS and
rate-limit headers it was given, and its status is 400, 200 or 500. -/
theorem afterSize_ok_inv (w : World) (c r : Option String) (b : JsVal) (out : HandlerOutcome)
    (h : afterSize w c r b = .ok out) :
    out.corsOrigin = c ∧ out.rlRemainingHeader = r ∧
      (out.status = 400 ∨ out.status = 200 ∨ out.status = 500) := by
  unfold afterSize at h
  repeat' split at h
  all_goals cases h
  all_goals simp

/-- Every successful handler result carries the CORS origin computed
from the allow-list. -/
theorem handler_ok_cors (w : World) (req : Req) (out : HandlerOutcome)
    (h : handler w req = .ok out) :
    out.corsOrigin = corsOriginFor w.production req.origin := by
  unfold handler at h
  repeat' split at h
  all_goals (try exact (afterSize_ok_inv _ _ _ _ _ h).1)
  all_goals (cases h; rfl)

/-- The pre-flight branch: an OPTIONS request gets the bare empty 200
immediately, with no delay, no rate-limit work and no downstream
call. -/
theorem handler_options (w : World) (req : Req) (hm : req.method = "OPTIONS") :
    handler w req =
      .ok ⟨200, none, corsOriginFor w.production req.origin, none, none, false, none⟩ := by
  unfold handler
  rw [hm]
  simp

/-- The method gate: a non-OPTIONS, non-POST request gets the 405. -/
theorem handler_bad_method (w : World) (req : Req)
    (h1 : req.method ≠ "OPTIONS") (h2 : req.method ≠ "POST") :
    handler w req =
      .ok ⟨405, some (errBody "Method not allowed"),
           corsOriginFor w.production req.origin, none, none, false, none⟩ := by
  unfold handler
  simp [h1, h2]

/-- The CSRF gate in production rejects a failing token pair with the
generic 403. -/
theorem handler_csrf_reject (w : World) (req : Req) (hm : req.method = "POST")
    (hp : w.production = true) (hv : validateCSRF req = false) :
    handler w req =
      .ok ⟨403, some (errBody "Invalid request. Please refresh the page and try again."),
           corsOriginFor w.production req.origin, none, none, false, none⟩ := by
  unfold handler
  rw [hm]
  simp [hp, hv]

/-- A 403 can only come out of the CSRF gate: production mode, a
failing token pair, and the fixed generic body. -/
theorem handler_403_inv (w : World) (req : Req) (out : HandlerOutcome)
    (h : handler w req = .ok out) (hs : out.status = 403) :
    req.method = "POST" ∧ w.production = true ∧ validateCSRF req = false ∧
      out = ⟨403, some (errBody "Invalid request. Please refresh the page and try again."),
             corsOriginFor w.production req.origin, none, none, false, none⟩ := by
  unfold handler at h
  repeat' split at h
  all_goals
    (try (rcases (afterSize_ok_inv _ _ _ _ _ h).2.2 with h3 | h3 | h3 <;> omega))
  all_goals (cases h; simp at hs)
  rename_i hOpt hPost hCond
  rw [Bool.and_eq_true, Bool.not_eq_true'] at hCond
  exact ⟨not_ne_iff.mp hPost, hCond.1, hCond.2, rfl⟩

/-- The rate-limit gate blocks with the 429 and the remaining-count
header exactly when the configured limiter reports failure. -/
theorem handler_rl_block (w : World) (req : Req) (rem : Int) (hm : req.method = "POST")
    (hcsrf : w.production = true → validateCSRF req = true)
    (hrl : rlBlocked w req = some rem) :
    handler w req =
      .ok ⟨429, some (errBody "Too many requests. Please try again later."),
           corsOriginFor w.production req.origin, some (toString rem), none, false, none⟩ := by
  have hc : (w.production && !validateCSRF req) = false := by
    cases hP : w.production with
    | false => simp
    | true => simp [hcsrf hP]
  unfold handler
  rw [hm, hrl]
  simp [hc]

/-- A 429 can only come out of the rate-limit gate: the store is
configured and the limiter reported failure. -/
theorem handler_429_inv (w : World) (req : Req) (out : HandlerOutcome)
    (h : handler w req = .ok out) (hs : out.status = 429) :
    w.upstashConfigured = true ∧
      ∃ rem : Int, w.limiterOutcome (getClientIP req) = .ok (false, rem) := by
  unfold handler at h
  repeat' split at h
  all_goals
    (try (rcases (afterSize_ok_inv _ _ _ _ _ h).2.2 with h3 | h3 | h3 <;> omega))
  all_goals (cases h; simp at hs)
  rename_i rem heq
  have := (rlBlocked_eq_some w req rem).mp heq
  exact ⟨this.1, rem, this.2⟩

/-- A 413 can only come out of the size gate: the parsed body is too
large. -/
theorem handler_413_inv (w : World) (req : Req) (out : HandlerOutcome)
    (h : handler w req = .ok out) (hs : out.status = 413) :
    ∃ body, parseStage w req = .ok body ∧ isBodyTooLarge body = true := by
  unfold handler at h
  repeat' split at h
  all_goals
    (try (rcases (afterSize_ok_inv _ _ _ _ _ h).2.2 with h3 | h3 | h3 <;> omega))
  all_goals (cases h; simp at hs)
  rename_i body heq hlarge
  exact ⟨body, heq, hlarge⟩

/-- When the `email` field is a string, the normalization chain
produces exactly the trimmed, lowercased string. -/
theorem emailOf_str (body : JsVal) (s : String) (h : jsProp body "email" = .str s) :
    emailOf body = .ok (.str (jsToLower (jsTrim s))) := by
  unfold emailOf
  rw [h]
  rfl

/-- A falsy normalized email takes the missing-email rejection. -/
theorem afterSize_email_required (w : World) (c r : Option String) (body emailV : JsVal)
    (he : emailOf body = .ok emailV) (ht : jsTruthy emailV = false) :
    afterSize w c r body =
      .ok ⟨400, some (errBody "Email is required"), c, r, none, false, none⟩ := by
  unfold afterSize
  rw [he]
  simp [ht]

/-- A truthy but invalid normalized email takes the invalid-email
rejection. -/
theorem afterSize_email_invalid (w : World) (c r : Option String) (body emailV : JsVal)
    (he : emailOf body = .ok emailV) (ht : jsTruthy emailV = true)
    (hv : isValidEmail emailV = false) :
    afterSize w c r body =
      .ok ⟨400, some (errBody "Please provide a valid email address"), c, r, none, false, none⟩ := by
  unfold afterSize
  rw [he]
  simp [ht, hv]

/-- A valid email with a truthy honeypot field takes the honeypot
branch: delayed fake success, no downstream call. -/
theorem afterSize_honeypot (w : World) (c r : Option String) (body emailV : JsVal)
    (he : emailOf body = .ok emailV) (ht : jsTruthy emailV = true)
    (hv : isValidEmail emailV = true) (hw : jsTruthy (jsProp body "website") = true) :
    afterSize w c r body =
      .ok ⟨200, some successBody, c, r, some (randomDelay 200 600 w.rand), false, none⟩ := by
  unfold afterSize
  rw [he]
  simp [ht, hv, hw]

/-- Whenever the honeypot field is truthy, the tail pipeline never
contacts the downstream provider. -/
theorem afterSize_website_no_downstream (w : World) (c r : Option String) (body : JsVal)
    (out : HandlerOutcome) (h : afterSize w c r body = .ok out)
    (hw : jsTruthy (jsProp body "website") = true) :
    out.downstreamCalled = false := by
  unfold afterSize at h
  repeat' split at h
  all_goals cases h
  all_goals simp_all

/-- The email forwarded downstream, when one is forwarded at all, is
the normalized email value. -/
theorem afterSize_email_sent (w : World) (c r : Option String) (body emailV : JsVal)
    (out : HandlerOutcome) (he : emailOf body = .ok emailV)
    (h : afterSize w c r body = .ok out) (hne : out.downstreamEmail ≠ none) :
    out.downstreamEmail = some (strOf emailV) := by
  unfold afterSize at h
  rw [he] at h
  repeat' split at h
  all_goals cases h
  all_goals simp_all

/-- The downstream branch outcomes, characterized by the evaluation
of `response.ok && data.subscription`: success maps to the generic
200, a false condition to the fixed generic 400, and a thrown
property access (nullish payload) or a thrown fetch to the fixed
generic 500. -/
theorem handler_downstream_inv (w : World) (req : Req) (out : HandlerOutcome)
    (h : handler w req = .ok out) (hd : out.downstreamCalled = true) :
    (∃ ok2 data, w.fetchOutcome = .ok (ok2, data) ∧
        (okAndSubscription ok2 data = .ok true →
          out.status = 200 ∧ out.json = some successBody) ∧
        (okAndSubscription ok2 data = .ok false →
          out.status = 400 ∧ out.json = some (errBody "Subscription failed. Please try again.")) ∧
        (∀ e, okAndSubscription ok2 data = .error e →
          out.status = 500 ∧ out.json = some (errBody "Service temporarily unavailable")))
    ∨ (w.fetchOutcome = .error () ∧ out.status = 500 ∧
        out.json = some (errBody "Service temporarily unavailable")) := by
  unfold handler at h
  repeat' split at h
  all_goals (try (unfold afterSize at h; repeat' split at h))
  all_goals (cases h <;> simp at hd)
  · rename_i e heq
    right
    cases e
    exact ⟨heq, rfl, rfl⟩
  · rename_i heqf x e heq
    exact Or.inl ⟨_, _, heqf,
      fun hc => Except.noConfusion (heq.symm.trans hc),
      fun hc => Except.noConfusion (heq.symm.trans hc),
      fun e2 h2 => ⟨rfl, rfl⟩⟩
  · rename_i heqf x heq
    refine Or.inl ⟨_, _, heqf, fun _ => ⟨rfl, rfl⟩, ?_, ?_⟩
    · intro hc
      have h3 := heq.symm.trans hc
      injection h3 with h4
      exact Bool.noConfusion h4
    · intro e2 h2
      exact Except.noConfusion (heq.symm.trans h2)
  · rename_i heqf x heq
    refine Or.inl ⟨_, _, heqf, ?_, fun _ => ⟨rfl, rfl⟩, ?_⟩
    · intro hc
      have h3 := heq.symm.trans hc
      injection h3 with h4
      exact Bool.noConfusion h4
    · intro e2 h2
      exact Except.noConfusion (heq.symm.trans h2)

/-- The complete list of response bodies the handler can send; none of
them depends on the downstream payload. -/
def responseBodies : List (Option JsVal) :=
  [none, some successBody,
   some (errBody "Method not allowed"),
   some (errBody "Invalid request. Please refresh the page and try again."),
   some (errBody "Too many requests. Please try again later."),
   some (errBody "Invalid request format"),
   some (errBody "Request too large"),
   some (errBody "Email is required"),
   some (errBody "Please provide a valid email address"),
   some (errBody "Service temporarily unavailable"),
   some (errBody "Subscription failed. Please try again.")]

/-- Every response body the handler sends is one of the fixed
constants: nothing from the provider payload is echoed. -/
theorem handler_json_closed (w : World) (req : Req) (out : HandlerOutcome)
    (h : handler w req = .ok out) : out.json ∈ responseBodies := by
  unfold handler at h
  repeat' split at h
  all_goals (try (unfold afterSize at h; repeat' split at h))
  all_goals cases h
  all_goals simp [responseBodies]

/-- The size gate rejects an oversized parsed body with the 413. -/
theorem handler_size_reject (w : World) (req : Req) (body : JsVal)
    (hm : req.method = "POST")
    (hcsrf : w.production = true → validateCSRF req = true)
    (hrl : rlBlocked w req = none)
    (hparse : parseStage w req = .ok body)
    (hlarge : isBodyTooLarge body = true) :
    handler w req =
      .ok ⟨413, some (errBody "Request too large"),
           corsOriginFor w.production req.origin, rlHeaderFor w req, none, false, none⟩ := by
  have hc : (w.production && !validateCSRF req) = false := by
    cases hP : w.production with
    | false => simp
    | true => simp [hcsrf hP]
  unfold handler
  rw [hm, hrl, hparse]
  simp [hc, hlarge]

/-- Shared fixture: a healthy downstream payload. -/
def okFetchData : JsVal :=
  .obj [("subscription", .obj [("subscriber_id", .num 1)])]

/-- Shared fixture: development mode, no rate-limit store, provider
configured, downstream succeeding. -/
def baseWorld : World :=
  { production := false
    upstashConfigured := false
    limiterOutcome := fun _ => .error ()
    jsonParse := fun _ => .error ()
    convertkitApiKey := some "ck_key"
    convertkitFormId := some "12345"
    rand := 0
    fetchOutcome := .ok (true, okFetchData) }

/-- Shared fixture: a well-formed subscription POST from the allowed
production origin. -/
def baseReq : Req :=
  { method := "POST"
    origin := some "https://bluebeaconshow.com"
    cookieCsrfToken := none
    headerCsrfToken := none
    xRealIp := some "203.0.113.7"
    xForwardedFor := none
    body := .obj [("email", .str "user@example.com"), ("website", .str "")] }

/-! ## Claim theorems -/

/-- C6: a request whose Origin is exactly on the allow-list has that
origin echoed in `Access-Control-Allow-Origin`; an unlisted or absent
origin yields no such header; and every OPTIONS request is answered
immediately with an empty 200 — no body, no rate-limit header, no
delay, no downstream call. -/
theorem claim_cors_preflight (w : World) (req : Req) :
    (∀ o out, req.origin = some o → o ∈ ALLOWED_ORIGINS w.production →
        handler w req = .ok out → out.corsOrigin = some o)
    ∧ (∀ out, (∀ o, req.origin = some o → o ∉ ALLOWED_ORIGINS w.production) →
        handler w req = .ok out → out.corsOrigin = none)
    ∧ (req.method = "OPTIONS" →
        handler w req =
          .ok ⟨200, none, corsOriginFor w.production req.origin, none, none, false, none⟩) := by
  refine ⟨?_, ?_, fun hm => handler_options w req hm⟩
  · intro o out ho hmem h
    rw [handler_ok_cors w req out h]
    unfold corsOriginFor
    rw [ho]
    simp [hmem]
  · intro out hno h
    rw [handler_ok_cors w req out h]
    unfold corsOriginFor
    cases ho : req.origin with
    | none => rfl
    | some o => simp [hno o ho]

/-- Witness for C6 at a concrete allowed origin. -/
theorem claim_cors_preflight_witness :
    ∃ out, handler baseWorld baseReq = .ok out ∧
      out.corsOrigin = some "https://bluebeaconshow.com" := by
  refine ⟨⟨200, some successBody, some "https://bluebeaconshow.com", none, none, true,
    some "user@example.com"⟩, rfl, ?_⟩
  exact (claim_cors_preflight baseWorld baseReq).1 "https://bluebeaconshow.com" _ rfl
    (by decide) rfl

/-- C2: in production mode, a request past the CORS and method stages
is rejected with the single generic 403 exactly when the cookie and
header do not both hold the same token of length at least 32; outside
production the CSRF fields are never consulted. -/
theorem claim_csrf_stage (w : World) (req : Req) (c h : Option String) :
    (w.production = true → req.method = "POST" →
      ((∃ out, handler w req = .ok out ∧ out.status = 403 ∧
          out.json = some (errBody "Invalid request. Please refresh the page and try again."))
        ↔ ¬ ∃ t, req.cookieCsrfToken = some t ∧ req.headerCsrfToken = some t ∧
            32 ≤ jsLength t))
    ∧ (w.production = false →
        handler w req = handler w { req with cookieCsrfToken := c, headerCsrfToken := h }) := by
  constructor
  · intro hp hm
    constructor
    · rintro ⟨out, hout, hs, hj⟩ hex
      have hinv := handler_403_inv w req out hout hs
      have h2 := (validateCSRF_iff req).mpr hex
      rw [hinv.2.2.1] at h2
      exact absurd h2 (by simp)
    · intro hnex
      have hv : validateCSRF req = false := by
        cases hb : validateCSRF req with
        | false => rfl
        | true => exact absurd ((validateCSRF_iff req).mp hb) hnex
      exact ⟨_, handler_csrf_reject w req hm hp hv, rfl, rfl⟩
  · intro hp
    unfold handler
    simp only [hp, Bool.false_and]
    rfl

/-- Shared fixture: production mode. -/
def prodWorld : World := { baseWorld with production := true }

/-- Witness for C2: a tokenless production POST gets the generic
403. -/
theorem claim_csrf_stage_witness :
    ∃ out, handler prodWorld baseReq = .ok out ∧ out.status = 403 ∧
      out.json = some (errBody "Invalid request. Please refresh the page and try again.") :=
  ((claim_csrf_stage prodWorld baseReq none none).1 rfl rfl).mpr
    (by rintro ⟨t, ht, h2, h3⟩; exact Option.noConfusion ht)

/-- C1 (amended): a request that passes the method, CSRF, rate-limit,
parsing, size and email-validation stages and whose body has a truthy
`website` honeypot field receives the fake success response after a
randomized delay of between 200 and 600 ms; and for every request
whose parsed body has a truthy `website` field the downstream
provider is never invoked. -/
theorem claim_honeypot (w : World) (req : Req) (body emailV : JsVal)
    (hm : req.method = "POST")
    (hcsrf : w.production = true → validateCSRF req = true)
    (hrl : rlBlocked w req = none)
    (hparse : parseStage w req = .ok body)
    (hsize : isBodyTooLarge body = false)
    (he : emailOf body = .ok emailV)
    (ht : jsTruthy emailV = true)
    (hv : isValidEmail emailV = true)
    (hw : jsTruthy (jsProp body "website") = true) :
    handler w req =
      .ok ⟨200, some successBody, corsOriginFor w.production req.origin, rlHeaderFor w req,
           some (randomDelay 200 600 w.rand), false, none⟩
    ∧ 200 ≤ randomDelay 200 600 w.rand ∧ randomDelay 200 600 w.rand ≤ 600
    ∧ (∀ w2 req2 b2 out2, handler w2 req2 = .ok out2 → parseStage w2 req2 = .ok b2 →
        jsTruthy (jsProp b2 "website") = true → out2.downstreamCalled = false) := by
  refine ⟨?_, ?_, ?_, ?_⟩
  · rw [handler_reaches_email w req body hm hcsrf hrl hparse hsize]
    exact afterSize_honeypot w _ _ body emailV he ht hv hw
  · unfold randomDelay
    omega
  · unfold randomDelay
    have := Nat.mod_lt w.rand (show 0 < 600 - 200 + 1 by omega)
    omega
  · intro w2 req2 b2 out2 h2 hp2 hw2
    unfold handler at h2
    repeat' split at h2
    all_goals (try (cases h2; rfl))
    rename_i body2 hpe hsz
    rw [hp2] at hpe
    injection hpe with hbe
    subst hbe
    exact afterSize_website_no_downstream w2 _ _ b2 out2 h2 hw2

/-- Fixture for the C1 counterexample: non-empty honeypot, no email
field at all. -/
def honeypotNoEmailReq : Req :=
  { baseReq with body := .obj [("website", .str "http://spam.example")] }

/-- Counterexample to C1 as stated: this POST has a non-empty
`website` honeypot field, yet the handler answers 400 missing-email
rather than the success shape, because the honeypot check runs only
after email validation. -/
theorem claim_honeypot_counterexample :
    jsTruthy (jsProp honeypotNoEmailReq.body "website") = true ∧
    ∃ out, handler baseWorld honeypotNoEmailReq = .ok out ∧ out.status ≠ 200 ∧
      out.json ≠ some successBody := by
  refine ⟨rfl, ⟨400, some (errBody "Email is required"), some "https://bluebeaconshow.com",
    none, none, false, none⟩, rfl, by decide, ?_⟩
  simp [errBody, successBody]

/-- Fixture for the C1 witness: a bot-filled form with a valid email
and a populated honeypot. -/
def honeypotReq : Req :=
  { baseReq with
      body := .obj [("email", .str "bot@spam.example"), ("website", .str "http://spam.example")] }

/-- Witness for C1 at a concrete bot request. -/
theorem claim_honeypot_witness :
    handler baseWorld honeypotReq =
      .ok ⟨200, some successBody, corsOriginFor baseWorld.production honeypotReq.origin,
           rlHeaderFor baseWorld honeypotReq, some (randomDelay 200 600 baseWorld.rand),
           false, none⟩ :=
  (claim_honeypot baseWorld honeypotReq honeypotReq.body (.str "bot@spam.example")
    rfl (fun hp => absurd hp (by decide)) rfl rfl rfl rfl rfl rfl rfl).1

/-- C10: the rate-limit stage is fail-open — with the store
unconfigured, or with the limiter call throwing, the handler never
answers 429 and behaves exactly as if no limiter existed. -/
theorem claim_rate_limit_fail_open (w : World) (req : Req) :
    (w.upstashConfigured = false → ∀ out, handler w req = .ok out → out.status ≠ 429)
    ∧ (w.limiterOutcome (getClientIP req) = .error () →
        (∀ out, handler w req = .ok out → out.status ≠ 429)
        ∧ handler w req = handler { w with upstashConfigured := false } req) := by
  constructor
  · intro hU out h hs
    have hinv := handler_429_inv w req out h hs
    rw [hU] at hinv
    exact Bool.noConfusion hinv.1
  · intro hL
    constructor
    · intro out h hs
      obtain ⟨h1, rem, h2⟩ := handler_429_inv w req out h hs
      rw [hL] at h2
      exact Except.noConfusion h2
    · have hb : rlBlocked w req = none := by
        unfold rlBlocked
        rw [hL]
        simp
      have hh : rlHeaderFor w req = none := by
        unfold rlHeaderFor
        rw [hL]
        simp
      unfold handler
      rw [hb, hh]
      rfl

/-- Witness for C10: with the store unconfigured, the concrete happy
path is not rate limited. -/
theorem claim_rate_limit_fail_open_witness :
    (⟨200, some successBody, some "https://bluebeaconshow.com", none, none, true,
      some "user@example.com"⟩ : HandlerOutcome).status ≠ 429 :=
  (claim_rate_limit_fail_open baseWorld baseReq).1 rfl _ rfl

/-- C7 (amended): past method, CSRF and rate-limit, with the body
parsed, the request is rejected with the 413 payload-too-large
response iff `isBodyTooLarge` holds — the JSON serialization exists
and its length exceeds 1024 UTF-16 code units, or the body does not
serialize at all (`undefined`); otherwise the pipeline continues to
the email stage. -/
theorem claim_size_stage (w : World) (req : Req) (body : JsVal)
    (hm : req.method = "POST")
    (hcsrf : w.production = true → validateCSRF req = true)
    (hrl : rlBlocked w req = none)
    (hparse : parseStage w req = .ok body) :
    ((∃ out, handler w req = .ok out ∧ out.status = 413 ∧
        out.json = some (errBody "Request too large")) ↔ isBodyTooLarge body = true)
    ∧ (∀ s, jsonStringify body = some s → (isBodyTooLarge body = true ↔ 1024 < jsLength s))
    ∧ (jsonStringify body = none → isBodyTooLarge body = true)
    ∧ (isBodyTooLarge body = false →
        handler w req =
          afterSize w (corsOriginFor w.production req.origin) (rlHeaderFor w req) body) := by
  refine ⟨⟨?_, ?_⟩, ?_, ?_, ?_⟩
  · rintro ⟨out, hout, hs, hj⟩
    obtain ⟨body2, hp2, hl2⟩ := handler_413_inv w req out hout hs
    rw [hparse] at hp2
    injection hp2 with hb
    rw [hb]
    exact hl2
  · intro hlarge
    exact ⟨_, handler_size_reject w req body hm hcsrf hrl hparse hlarge, rfl, rfl⟩
  · intro s hs
    unfold isBodyTooLarge
    rw [hs]
    simp [MAX_BODY_SIZE]
  · intro hns
    unfold isBodyTooLarge
    rw [hns]
  · exact fun hsmall => handler_reaches_email w req body hm hcsrf hrl hparse hsmall

/-- Fixture for the C7 counterexample: a POST with no delivered body,
so `req.body` is `undefined`. -/
def undefinedBodyReq : Req := { baseReq with body := .undefined }

/-- Counterexample to C7 as stated: a POST whose body is `undefined`
is answered 413 although no JSON serialization of the body exists,
let alone one exceeding 1024 bytes — `JSON.stringify(undefined)`
yields the value `undefined`, reading `.length` on it throws, and the
catch in `isBodyTooLarge` reports the body as too large. -/
theorem claim_size_stage_counterexample :
    (∃ out, handler baseWorld undefinedBodyReq = .ok out ∧ out.status = 413 ∧
       out.json = some (errBody "Request too large"))
    ∧ ¬∃ s, jsonStringify undefinedBodyReq.body = some s ∧ 1024 < jsLength s := by
  constructor
  · exact ⟨⟨413, some (errBody "Request too large"), some "https://bluebeaconshow.com",
      none, none, false, none⟩, rfl, rfl, rfl⟩
  · rintro ⟨s, hs, h2⟩
    exact Option.noConfusion hs

/-- Fixture for the C7 witness: a body whose serialization exceeds
1024 code units. -/
def largeBodyReq : Req :=
  { baseReq with body := .obj [("email", .str (String.mk (List.replicate 1100 'a')))] }

set_option maxRecDepth 100000 in
/-- Witness for C7: the oversized concrete body is rejected with the
413. -/
theorem claim_size_stage_witness :
    ∃ out, handler baseWorld largeBodyReq = .ok out ∧ out.status = 413 ∧
      out.json = some (errBody "Request too large") :=
  ((claim_size_stage baseWorld largeBodyReq largeBodyReq.body rfl
    (fun hp => absurd hp (by decide)) rfl rfl).1).mpr rfl

/-- Fixture for C9: a numeric `email` field. -/
def numberEmailReq : Req := { baseReq with body := .obj [("email", .num 42)] }

/-- C9: a POST passing the method, CSRF, rate-limit, parsing and size
stages whose `email` field is a non-nullish non-string makes the
handler throw a TypeError instead of answering 400; and the
normalization chain only ever produces `undefined` or a string, so
the non-string guard inside `isValidEmail` is unreachable from the
handler. -/
theorem claim_nonstring_email_throws :
    handler baseWorld numberEmailReq = .error "TypeError"
    ∧ (∀ body v, emailOf body = .ok v → v = .undefined ∨ ∃ s, v = .str s) := by
  constructor
  · rfl
  · intro body v h
    unfold emailOf at h
    cases he : jsProp body "email" with
    | undefined =>
      rw [he] at h
      injection h with h2
      exact .inl h2.symm
    | null =>
      rw [he] at h
      injection h with h2
      exact .inl h2.symm
    | str s =>
      rw [he] at h
      injection h with h2
      exact .inr ⟨jsToLower (jsTrim s), h2.symm⟩
    | bool b =>
      rw [he] at h
      cases h
    | num n =>
      rw [he] at h
      cases h
    | arr xs =>
      rw [he] at h
      cases h
    | obj fs =>
      rw [he] at h
      cases h

/-- Witness for C9: the normalization chain on a concrete string
email lands in the string case. -/
theorem claim_nonstring_email_throws_witness :
    JsVal.str "x" = JsVal.undefined ∨ ∃ s, JsVal.str "x" = JsVal.str s :=
  claim_nonstring_email_throws.2 (.obj [("email", .str "x")]) (.str "x") rfl

/-- C4 (amended): a trimmed email that fails the shared regular
expression is rejected by the client; on the server, a missing email
(absent `email` field, or a null one) and an empty-after-normalization
email get the distinct 400 missing-email response, a non-empty
normalized email failing the regular expression or exceeding 254 code
units gets the 400 invalid-email response (in both cases with no
downstream call), the email is trimmed and lowercased before
validation, and whenever an email is forwarded downstream it is
exactly the normalized one.  (The 254-character cap exists only on
the server, not in the client-side validation.) -/
theorem claim_email_validation (w : World) (req : Req) (body : JsVal) (s input : String)
    (hm : req.method = "POST")
    (hcsrf : w.production = true → validateCSRF req = true)
    (hrl : rlBlocked w req = none)
    (hparse : parseStage w req = .ok body)
    (hsize : isBodyTooLarge body = false) :
    (emailRegexTest (jsTrim input) = false → clientAccepts input = false)
    ∧ (jsProp body "email" = .undefined ∨ jsProp body "email" = .null ∨
        (jsProp body "email" = .str s ∧ jsToLower (jsTrim s) = "") →
        handler w req = .ok ⟨400, some (errBody "Email is required"),
          corsOriginFor w.production req.origin, rlHeaderFor w req, none, false, none⟩)
    ∧ (jsProp body "email" = .str s → jsToLower (jsTrim s) ≠ "" →
        (emailRegexTest (jsToLower (jsTrim s)) = false ∨ 254 < jsLength (jsToLower (jsTrim s))) →
        handler w req = .ok ⟨400, some (errBody "Please provide a valid email address"),
          corsOriginFor w.production req.origin, rlHeaderFor w req, none, false, none⟩)
    ∧ (jsProp body "email" = .str s → ∀ out, handler w req = .ok out →
        out.downstreamEmail ≠ none → out.downstreamEmail = some (jsToLower (jsTrim s))) := by
  have hreach := handler_reaches_email w req body hm hcsrf hrl hparse hsize
  refine ⟨?_, ?_, ?_, ?_⟩
  · intro hre
    unfold clientAccepts
    simp [hre]
  · intro hcase
    rw [hreach]
    rcases hcase with hu | hn | ⟨hstr, hz⟩
    · have he : emailOf body = .ok .undefined := by
        unfold emailOf
        rw [hu]
        rfl
      exact afterSize_email_required w _ _ body _ he rfl
    · have he : emailOf body = .ok .undefined := by
        unfold emailOf
        rw [hn]
        rfl
      exact afterSize_email_required w _ _ body _ he rfl
    · have he := emailOf_str body s hstr
      apply afterSize_email_required w _ _ body _ he
      simp [jsTruthy, hz]
  · intro hemail hnz hbad
    have he := emailOf_str body s hemail
    rw [hreach]
    apply afterSize_email_invalid w _ _ body _ he
    · simp [jsTruthy, hnz]
    · unfold isValidEmail
      rcases hbad with hb | hb
      · simp [hb]
      · simp [hb]
  · intro hemail out hout hne
    have he := emailOf_str body s hemail
    rw [hreach] at hout
    exact afterSize_email_sent w _ _ body _ out he hout hne

/-- Fixture for the C4 counterexample: a 255-code-unit email matching
the shared regular expression. -/
def longEmail : String := String.mk (List.replicate 250 'a') ++ "@b.co"

set_option maxRecDepth 100000 in
/-- Counterexample to C4 as stated: this email exceeds 254 characters
yet the client-side validation accepts it — the 254 cap exists only
on the server. -/
theorem claim_email_validation_counterexample :
    clientAccepts longEmail = true ∧ 254 < jsLength longEmail ∧
      isValidEmail (.str longEmail) = false := by
  refine ⟨by decide, by decide, by decide⟩

/-- Fixture for the C4 witness: a body with no `email` field at
all. -/
def missingEmailReq : Req := { baseReq with body := .obj [("website", .str "")] }

/-- Witness for C4: the missing email gets the distinct missing-email
400. -/
theorem claim_email_validation_witness :
    handler baseWorld missingEmailReq = .ok ⟨400, some (errBody "Email is required"),
      corsOriginFor baseWorld.production missingEmailReq.origin,
      rlHeaderFor baseWorld missingEmailReq, none, false, none⟩ :=
  (claim_email_validation baseWorld missingEmailReq missingEmailReq.body "" "" rfl
    (fun hp => absurd hp (by decide)) rfl rfl rfl).2.1 (Or.inl rfl)

/-- C5: for requests that reach the downstream call, a provider
response with `response.ok` and a truthy `subscription` field yields
the generic 200 success body; a false `response.ok && data.subscription`
condition yields the fixed generic 400; a nullish payload under a
successful HTTP status (where the plain access `data.subscription`
throws inside the try) and a thrown fetch both yield the fixed
generic 500; and every response body the handler can ever send
belongs to the fixed list `responseBodies`, so no part of the
provider payload appears in any response. -/
theorem claim_result_translation (w : World) (req : Req) (data : JsVal) (ok2 : Bool) :
    (∀ out, handler w req = .ok out → out.downstreamCalled = true →
        w.fetchOutcome = .ok (ok2, data) → okAndSubscription ok2 data = .ok true →
        out.status = 200 ∧ out.json = some successBody)
    ∧ (∀ out, handler w req = .ok out → out.downstreamCalled = true →
        w.fetchOutcome = .ok (ok2, data) → okAndSubscription ok2 data = .ok false →
        out.status = 400 ∧ out.json = some (errBody "Subscription failed. Please try again."))
    ∧ (∀ out e, handler w req = .ok out → out.downstreamCalled = true →
        w.fetchOutcome = .ok (ok2, data) → okAndSubscription ok2 data = .error e →
        out.status = 500 ∧ out.json = some (errBody "Service temporarily unavailable"))
    ∧ (∀ out, handler w req = .ok out → out.downstreamCalled = true →
        w.fetchOutcome = .error () →
        out.status = 500 ∧ out.json = some (errBody "Service temporarily unavailable"))
    ∧ (∀ out, handler w req = .ok out → out.json ∈ responseBodies) := by
  refine ⟨?_, ?_, ?_, ?_, fun out h => handler_json_closed w req out h⟩
  · intro out h hd hf hc
    rcases handler_downstream_inv w req out h hd with
      ⟨ok3, data3, hf3, hsucc, hfail, hthrow⟩ | ⟨hf3, h1, h2⟩
    · rw [hf] at hf3
      injection hf3 with hp
      injection hp with hok hdata
      subst hok
      subst hdata
      exact hsucc hc
    · rw [hf] at hf3
      exact Except.noConfusion hf3
  · intro out h hd hf hc
    rcases handler_downstream_inv w req out h hd with
      ⟨ok3, data3, hf3, hsucc, hfail, hthrow⟩ | ⟨hf3, h1, h2⟩
    · rw [hf] at hf3
      injection hf3 with hp
      injection hp with hok hdata
      subst hok
      subst hdata
      exact hfail hc
    · rw [hf] at hf3
      exact Except.noConfusion hf3
  · intro out e h hd hf hc
    rcases handler_downstream_inv w req out h hd with
      ⟨ok3, data3, hf3, hsucc, hfail, hthrow⟩ | ⟨hf3, h1, h2⟩
    · rw [hf] at hf3
      injection hf3 with hp
      injection hp with hok hdata
      subst hok
      subst hdata
      exact hthrow e hc
    · rw [hf] at hf3
      exact Except.noConfusion hf3
  · intro out h hd hf
    rcases handler_downstream_inv w req out h hd with
      ⟨ok3, data3, hf3, hsucc, hfail, hthrow⟩ | ⟨hf3, h1, h2⟩
    · rw [hf] at hf3
      exact Except.noConfusion hf3
    · exact ⟨h1, h2⟩

/-- Witness for C5: the concrete happy path yields the generic
success body. -/
theorem claim_result_translation_witness :
    (⟨200, some successBody, some "https://bluebeaconshow.com", none, none, true,
      some "user@example.com"⟩ : HandlerOutcome).status = 200 ∧
    (⟨200, some successBody, some "https://bluebeaconshow.com", none, none, true,
      some "user@example.com"⟩ : HandlerOutcome).json = some successBody :=
  (claim_result_translation baseWorld baseReq okFetchData true).1 _ rfl rfl rfl rfl

/-- Window-bound invariant for the modelled sliding-window limiter:
processing nondecreasing request times from a state whose entries all
precede them, the admitted requests inside any window `[a, a + 60)`
and the state entries already inside it never total more than 5. -/
theorem rl_window_aux (reqs : List Nat) (state : List Nat) (a : Nat)
    (hsorted : List.Sorted (· ≤ ·) reqs)
    (hpast : ∀ ts ∈ state, ∀ t ∈ reqs, ts ≤ t)
    (hcount : (state.countP fun ts => decide (a ≤ ts ∧ ts < a + 60)) ≤ 5) :
    ((rlProcess state reqs).countP fun p => p.2 && decide (a ≤ p.1 ∧ p.1 < a + 60)) +
      (state.countP fun ts => decide (a ≤ ts ∧ ts < a + 60)) ≤ 5 := by
  induction reqs generalizing state with
  | nil => simpa [rlProcess] using hcount
  | cons t rest ih =>
    rw [List.sorted_cons] at hsorted
    obtain ⟨hle, hsrest⟩ := hsorted
    have hpast_rest : ∀ ts ∈ state, ∀ r ∈ rest, ts ≤ r :=
      fun ts hts r hr => hpast ts hts r (List.mem_cons_of_mem t hr)
    have hstep : rlProcess state (t :: rest) =
        (t, rlAllow state t) :: rlProcess (rlStep state t) rest := rfl
    rw [hstep, List.countP_cons]
    by_cases hwin : a ≤ t ∧ t < a + 60
    · have hwdec : decide (a ≤ t ∧ t < a + 60) = true := decide_eq_true hwin
      cases hok : rlAllow state t with
      | true =>
        have hstate2 : rlStep state t = t :: state := by simp [rlStep, hok]
        have hk : (state.countP fun ts => decide (a ≤ ts ∧ ts < a + 60)) ≤ 4 := by
          have hmono : (state.countP fun ts => decide (a ≤ ts ∧ ts < a + 60))
              ≤ (state.countP fun ts => decide (ts ≤ t ∧ t < ts + 60)) := by
            apply List.countP_mono_left
            intro ts hts hc
            have h1 := of_decide_eq_true hc
            have h2 := hpast ts hts t (List.mem_cons_self t rest)
            exact decide_eq_true ⟨h2, by omega⟩
          have hlt : (state.countP fun ts => decide (ts ≤ t ∧ t < ts + 60)) < 5 := by
            have h3 := hok
            unfold rlAllow at h3
            simpa using h3
          omega
        have hpast2 : ∀ ts ∈ t :: state, ∀ r ∈ rest, ts ≤ r := by
          intro ts hts r hr
          rcases List.mem_cons.mp hts with h | h
          · subst h
            exact hle r hr
          · exact hpast_rest ts h r hr
        have hcount2 : ((t :: state).countP fun ts => decide (a ≤ ts ∧ ts < a + 60)) ≤ 5 := by
          rw [List.countP_cons, hwdec, if_pos rfl]
          omega
        have ihapp := ih (t :: state) hsrest hpast2 hcount2
        rw [List.countP_cons, hwdec, if_pos rfl] at ihapp
        rw [hstate2, if_pos (show ((t, true).2 &&
          decide (a ≤ (t, true).1 ∧ (t, true).1 < a + 60)) = true by simp [hwdec])]
        omega
      | false =>
        have hstate2 : rlStep state t = state := by simp [rlStep, hok]
        have ihapp := ih state hsrest hpast_rest hcount
        rw [hstate2, if_neg (show ¬((t, false).2 &&
          decide (a ≤ (t, false).1 ∧ (t, false).1 < a + 60)) = true by simp)]
        omega
    · have hwdec : decide (a ≤ t ∧ t < a + 60) = false := decide_eq_false hwin
      cases hok : rlAllow state t with
      | true =>
        have hstate2 : rlStep state t = t :: state := by simp [rlStep, hok]
        have hpast2 : ∀ ts ∈ t :: state, ∀ r ∈ rest, ts ≤ r := by
          intro ts hts r hr
          rcases List.mem_cons.mp hts with h | h
          · subst h
            exact hle r hr
          · exact hpast_rest ts h r hr
        have hcount2 : ((t :: state).countP fun ts => decide (a ≤ ts ∧ ts < a + 60)) ≤ 5 := by
          rw [List.countP_cons, hwdec, if_neg (by simp)]
          simpa using hcount
        have ihapp := ih (t :: state) hsrest hpast2 hcount2
        rw [List.countP_cons, hwdec, if_neg (by simp)] at ihapp
        rw [hstate2, if_neg (show ¬((t, true).2 &&
          decide (a ≤ (t, true).1 ∧ (t, true).1 < a + 60)) = true by simp [hwdec])]
        omega
      | false =>
        have hstate2 : rlStep state t = state := by simp [rlStep, hok]
        have ihapp := ih state hsrest hpast_rest hcount
        rw [hstate2, if_neg (show ¬((t, false).2 &&
          decide (a ≤ (t, false).1 ∧ (t, false).1 < a + 60)) = true by simp)]
        omega

/-- C3 (against the spec-modelled limiter): over any nondecreasing
trace of request times for one identifier, at most 5 requests are
admitted inside any 60-second window; a request arriving while 5
admitted timestamps lie in its last 60 seconds is rejected; a request
arriving after the window has elapsed past every recorded timestamp
is admitted again; and on the server a blocking limiter decision is
answered with the 429 too-many-requests response. -/
theorem claim_rate_limit_window (w : World) (req : Req) (rem : Int) :
    (∀ reqs : List Nat, List.Sorted (· ≤ ·) reqs → ∀ a : Nat,
        ((rlProcess [] reqs).countP fun p => p.2 && decide (a ≤ p.1 ∧ p.1 < a + 60)) ≤ 5)
    ∧ (∀ state t, 5 ≤ (state.countP fun ts => decide (ts ≤ t ∧ t < ts + 60)) →
        rlAllow state t = false)
    ∧ (∀ state t, (∀ ts ∈ state, ts + 60 ≤ t) → rlAllow state t = true)
    ∧ (req.method = "POST" → (w.production = true → validateCSRF req = true) →
        rlBlocked w req = some rem →
        handler w req = .ok ⟨429, some (errBody "Too many requests. Please try again later."),
          corsOriginFor w.production req.origin, some (toString rem), none, false, none⟩) := by
  refine ⟨?_, ?_, ?_, fun hm hcsrf hrl => handler_rl_block w req rem hm hcsrf hrl⟩
  · intro reqs hs a
    have h := rl_window_aux reqs [] a hs (by simp) (by simp)
    simpa using h
  · intro state t h5
    unfold rlAllow
    simp only [decide_eq_false_iff_not, not_lt]
    exact h5
  · intro state t hall
    unfold rlAllow
    have hz : (state.countP fun ts => decide (ts ≤ t ∧ t < ts + 60)) = 0 := by
      rw [List.countP_eq_zero]
      intro ts hts
      have h1 := hall ts hts
      simp only [decide_eq_true_eq, not_and, not_lt]
      omega
    rw [hz]
    rfl

/-- Witness for C3 at a concrete trace: seven requests inside one
minute, of which the limiter admits at most five. -/
theorem claim_rate_limit_window_witness :
    ((rlProcess [] [0, 10, 20, 30, 40, 50, 59]).countP
      fun p => p.2 && decide (0 ≤ p.1 ∧ p.1 < 0 + 60)) ≤ 5 :=
  (claim_rate_limit_window baseWorld baseReq 0).1 [0, 10, 20, 30, 40, 50, 59] (by decide) 0

/-- The sixteen lower-case hexadecimal digit characters. -/
def hexDigits : List Char :=
  "0123456789abcdef".data

/-- `hexDigit` of a nibble is one of the sixteen hexadecimal digit
characters. -/
theorem hexDigit_mem (n : Nat) (h : n < 16) : hexDigit n ∈ hexDigits := by
  interval_cases n <;> decide

/-- Hexadecimal digit characters occupy one UTF-16 code unit. -/
theorem utf16Len_hexDigit (n : Nat) (h : n < 16) : utf16Len (hexDigit n) = 1 := by
  interval_cases n <;> decide

/-- The characters of a generated token, byte by byte. -/
theorem generateCSRFToken_data (bytes : List Nat) :
    (generateCSRFToken bytes).data =
      (bytes.map fun b => [hexDigit (b / 16), hexDigit (b % 16)]).flatten := by
  unfold generateCSRFToken byteToHex2
  rw [String.data_join, List.map_map]
  rfl

/-- A generated token has two UTF-16 code units per byte. -/
theorem jsLength_generateCSRFToken (bytes : List Nat) (hbytes : ∀ b ∈ bytes, b < 256) :
    jsLength (generateCSRFToken bytes) = 2 * bytes.length := by
  unfold jsLength
  rw [generateCSRFToken_data]
  induction bytes with
  | nil => rfl
  | cons b bs ih =>
    rw [List.map_cons, List.flatten_cons, List.map_append, List.sum_append]
    have h1 : b < 256 := hbytes b (List.mem_cons_self b bs)
    have h2 := ih (fun x hx => hbytes x (List.mem_cons_of_mem b hx))
    have hu1 : utf16Len (hexDigit (b / 16)) = 1 := utf16Len_hexDigit _ (by omega)
    have hu2 : utf16Len (hexDigit (b % 16)) = 1 := utf16Len_hexDigit _ (by omega)
    rw [List.length_cons]
    simp only [List.map_cons, List.map_nil, List.sum_cons, List.sum_nil, hu1, hu2]
    omega

/-- C8: a token generated client-side from 32 random bytes is a
64-character string of hexadecimal digit characters, and any request
presenting it both as the `csrf_token` cookie and as the
`X-CSRF-Token` header passes the server's CSRF validation. -/
theorem claim_csrf_token_roundtrip (bytes : List Nat)
    (hlen : bytes.length = 32) (hbytes : ∀ b ∈ bytes, b < 256) :
    jsLength (generateCSRFToken bytes) = 64
    ∧ (∀ c ∈ (generateCSRFToken bytes).data, c ∈ hexDigits)
    ∧ (∀ req : Req, req.cookieCsrfToken = some (generateCSRFToken bytes) →
        req.headerCsrfToken = some (generateCSRFToken bytes) → validateCSRF req = true) := by
  have h64 : jsLength (generateCSRFToken bytes) = 64 := by
    rw [jsLength_generateCSRFToken bytes hbytes, hlen]
  refine ⟨h64, ?_, ?_⟩
  · rw [generateCSRFToken_data]
    intro c hc
    rw [List.mem_flatten] at hc
    obtain ⟨l, hl, hcl⟩ := hc
    rw [List.mem_map] at hl
    obtain ⟨b, hb, rfl⟩ := hl
    have hblt := hbytes b hb
    rcases List.mem_cons.mp hcl with h | h
    · subst h
      exact hexDigit_mem _ (by omega)
    · rcases List.mem_cons.mp h with h2 | h2
      · subst h2
        exact hexDigit_mem _ (by omega)
      · cases h2
  · intro req hc hh
    have hne : generateCSRFToken bytes ≠ "" := by
      intro h0
      rw [h0] at h64
      simp [jsLength] at h64
    unfold validateCSRF
    rw [hc, hh]
    rw [show (match some (generateCSRFToken bytes), some (generateCSRFToken bytes) with
      | some c, some h =>
        if c = "" ∨ h = "" then false
        else if c ≠ h then false
        else if jsLength c < 32 then false
        else true
      | _, _ => false) =
      (if generateCSRFToken bytes = "" ∨ generateCSRFToken bytes = "" then false
       else if generateCSRFToken bytes ≠ generateCSRFToken bytes then false
       else if jsLength (generateCSRFToken bytes) < 32 then false
       else true) from rfl]
    rw [if_neg (by simp [hne]), if_neg (by simp), if_neg (by simp [h64])]

/-- Witness for C8 at a concrete byte vector. -/
theorem claim_csrf_token_roundtrip_witness :
    jsLength (generateCSRFToken (List.replicate 32 171)) = 64 :=
  (claim_csrf_token_roundtrip (List.replicate 32 171) (by decide) (by decide)).1

end BlueBeacon
